import Mathlib

/-!
Verification of the address-resolution core of the SF rental-map dashboard
(`src/app.py`).  The embedding below translates the body of the Dash callback
`update_map` (src/app.py lines 34-172), its helper `update_map_with_message`
(lines 174-183) and the parts of the Python standard library it leans on
(`re.match`/`re.search` on the two concrete patterns used, and
`difflib.get_close_matches`, i.e. `SequenceMatcher.ratio`).

Modelling conventions:
* The pandas dataframe `rent_df` is a list of `RentalRecord`s.  Rows whose
  `block_address` is NaN are excluded by every filter the code performs
  (`str.contains(..., na=False)` at line 59), so the address column is
  modelled as non-null text.  Numeric columns that the code coerces or that
  may be missing are modelled as `Option ℚ`; `pd.to_numeric(..., errors :=
  coerce)` followed by `dropna` (lines 66-67) becomes a filter on
  `Option.isSome`.
* Python floats are modelled as exact rationals.  Every comparison the code
  performs on similarity scores involves rationals with tiny denominators
  (at most a few hundred), far apart relative to double rounding error, so
  the float comparisons and the exact rational comparisons agree.
* `\d` and `str.strip` are modelled on their ASCII meaning; the dataset and
  the queries in the specification are ASCII.
* Uncaught Python exceptions (the `IndexError` from `.iloc[0]` on an empty
  frame at line 89 and the `AttributeError` from `.group` on a failed
  `re.search` at line 75) are modelled as explicit `Outcome.pyError` values.
-/

/-- ASCII whitespace, as recognised by Python's `str.strip` and `\s`. -/
def pyWs (c : Char) : Bool :=
  c = ' ' || c = '\t' || c = '\n' || c = '\r' || c = Char.ofNat 11 || c = Char.ofNat 12

/-- Python `str.strip()`: drop leading and trailing whitespace. -/
def pyStrip (s : String) : String :=
  String.mk (((s.data.dropWhile pyWs).reverse.dropWhile pyWs).reverse)

/-- Value of a run of ASCII decimal digits, as `int()` reads it. -/
def natOfDigits (cs : List Char) : Nat :=
  cs.foldl (fun a c => 10 * a + (c.toNat - 48)) 0

/--
Groups of `re.match(r'(\d+)?\s*(.+)', s)` (src/app.py line 46), for the
stripped non-empty strings the callback feeds it (line 43 strips first).
Backtracking matters: on an all-digit input the greedy `(\d+)?` must give one
digit back so that `(.+)` can match, so `"100"` parses as number `10` and
street `"0"`; a single digit parses as no number at all.  `(.+)` stops at a
newline.  On a stripped input the text after the digits can never be entirely
whitespace, so no further backtracking arises.
-/
def parseAddress (s : String) : Option Nat × String :=
  let cs := s.data
  let d := (cs.takeWhile (fun c => c.isDigit)).length
  if d = 0 then
    (none, String.mk (cs.takeWhile (fun c => c ≠ '\n')))
  else if d = cs.length then
    if d = 1 then (none, s)
    else (some (natOfDigits (cs.take (d - 1))), String.mk (cs.drop (d - 1)))
  else
    (some (natOfDigits (cs.take d)),
     String.mk (((cs.drop d).dropWhile pyWs).takeWhile (fun c => c ≠ '\n')))

/--
`int(re.search(r'(\d+)', s).group(0))` (src/app.py line 75): the value of the
first run of digits anywhere in `s`.  When `s` contains no digit the search
returns `None` and the Python code raises `AttributeError` dereferencing it;
here that is `none`, turned into `Outcome.pyError` by `refsOf`.
-/
def extractRef (s : String) : Option Nat :=
  match s.data.dropWhile (fun c => !c.isDigit) with
  | [] => none
  | rest => some (natOfDigits (rest.takeWhile (fun c => c.isDigit)))

/-! ### difflib: `SequenceMatcher.ratio` and `get_close_matches`

`difflib.get_close_matches(word, possibilities, n := 1, cutoff := 0.7)`
(src/app.py line 62).  For each possibility `x` it builds
`SequenceMatcher(None, x, word)` — `x` is sequence `a`, the query `word` is
sequence `b` — keeps `x` when `ratio() ≥ cutoff` and returns the largest
surviving `(ratio, x)` pair (for `n = 1`, `heapq.nlargest` is `max`, so a
ratio tie is broken towards the lexicographically larger string).  The
`quick_ratio` pre-checks are upper bounds of `ratio` and cannot change the
outcome, so they are not modelled.  The autojunk heuristic only fires when
`b` has at least 200 characters, far beyond any query, so the junk set is
empty and only the plain neighbour-extension loops of `find_longest_match`
can act. -/

/-- Ascending positions of `c` in `b` — difflib's `b2j` chains. -/
def positionsOf (b : List Char) (c : Char) : List Nat :=
  (List.range b.length).filter (fun j => b.getD j c = c && decide (j < b.length))

/-- Lookup in the `j2len` association list of `find_longest_match`, 0 when absent. -/
def lookupJ (m : List (Nat × Nat)) (j : Nat) : Nat :=
  match m.find? (fun p => p.1 = j) with
  | some p => p.2
  | none => 0

/-- The backward neighbour-extension loop of `find_longest_match`
(`while besti > alo and bestj > blo and a[besti-1] == b[bestj-1]`). -/
def extendBack (a b : List Char) (alo blo : Nat) :
    Nat → Nat → Nat → Nat → Nat × Nat × Nat
  | 0, bi, bj, bs => (bi, bj, bs)
  | fuel + 1, bi, bj, bs =>
    if alo < bi && blo < bj then
      match a.get? (bi - 1), b.get? (bj - 1) with
      | some x, some y =>
        if x = y then extendBack a b alo blo fuel (bi - 1) (bj - 1) (bs + 1)
        else (bi, bj, bs)
      | _, _ => (bi, bj, bs)
    else (bi, bj, bs)

/-- The forward neighbour-extension loop of `find_longest_match`
(`while besti+bestsize < ahi and ... a[besti+bestsize] == b[bestj+bestsize]`). -/
def extendFwd (a b : List Char) (ahi bhi bi bj : Nat) : Nat → Nat → Nat
  | 0, bs => bs
  | fuel + 1, bs =>
    if bi + bs < ahi && bj + bs < bhi then
      match a.get? (bi + bs), b.get? (bj + bs) with
      | some x, some y => if x = y then extendFwd a b ahi bhi bi bj fuel (bs + 1) else bs
      | _, _ => bs
    else bs

/--
`SequenceMatcher.find_longest_match(alo, ahi, blo, bhi)` with an empty junk
set: the `j2len` dynamic program over rows `i ∈ [alo, ahi)`, each row scanning
the positions of `a[i]` inside `b` restricted to `[blo, bhi)`, followed by the
two neighbour-extension loops.  Returns `(besti, bestj, bestsize)`.
-/
def flm (a b : List Char) (alo ahi blo bhi : Nat) : Nat × Nat × Nat :=
  let final := (List.range' alo (ahi - alo)).foldl
    (fun (st : List (Nat × Nat) × (Nat × Nat × Nat)) i =>
      let j2len := st.1
      let js := (positionsOf b (a.getD i (Char.ofNat 0))).filter
        (fun j => decide (blo ≤ j) && decide (j < bhi))
      js.foldl
        (fun (acc : List (Nat × Nat) × (Nat × Nat × Nat)) j =>
          let prev := if j = 0 then 0 else lookupJ j2len (j - 1)
          let k := prev + 1
          let best := acc.2
          ((j, k) :: acc.1,
           if best.2.2 < k then (i + 1 - k, j + 1 - k, k) else best))
        ([], st.2))
    ([], (alo, blo, 0))
  let bi := final.2.1
  let bj := final.2.2.1
  let bs := final.2.2.2
  let back := extendBack a b alo blo bi bi bj bs
  (back.1, back.2.1, extendFwd a b ahi bhi back.1 back.2.1 ahi back.2.2)

/--
Total size of the matching blocks of `SequenceMatcher(None, a, b)`: the sum of
`bestsize` over the divide-and-conquer recursion of `get_matching_blocks`.
Each sub-interval of the recursion is strictly shorter in `a`, so fuel
`a.length + 1` never runs out at the top-level call.
-/
def matchTotalGo (a b : List Char) : Nat → Nat → Nat → Nat → Nat → Nat
  | 0, _, _, _, _ => 0
  | fuel + 1, alo, ahi, blo, bhi =>
    let r := flm a b alo ahi blo bhi
    let i := r.1
    let j := r.2.1
    let k := r.2.2
    if k = 0 then 0
    else
      k + (if alo < i && blo < j then matchTotalGo a b fuel alo i blo j else 0)
        + (if i + k < ahi && j + k < bhi then matchTotalGo a b fuel (i + k) ahi (j + k) bhi
           else 0)

/-- Sum of the matching-block sizes of `SequenceMatcher(None, a, b)`. -/
def matchTotal (a b : List Char) : Nat :=
  matchTotalGo a b (a.length + 1) 0 a.length 0 b.length

/--
`SequenceMatcher(None, x, word).ratio()` as an exact rational:
`2·M / (|x| + |word|)`, and 1 when both strings are empty (difflib's
`_calculate_ratio` special case).
-/
def simQ (word x : String) : ℚ :=
  if x.length + word.length = 0 then 1
  else (2 * matchTotal x.data word.data : ℚ) / (x.length + word.length : ℚ)

/-- Strict comparison of the `(ratio, string)` pairs that
`heapq.nlargest`/`max` compares inside `get_close_matches`: does `x` beat the
current best `c`? -/
def beats (w x c : String) : Bool :=
  decide (simQ w c < simQ w x) || (decide (simQ w c = simQ w x) && decide (c < x))

/-- One step of the running maximum over scored possibilities. -/
def gcmStep (w : String) (acc : Option String) (x : String) : Option String :=
  match acc with
  | none => some x
  | some c => if beats w x c then some x else some c

/-- `difflib.get_close_matches(w, poss, n := 1, cutoff := 0.7)`: the single
best possibility with ratio at least 0.7, if any. -/
def get_close_matches (w : String) (poss : List String) : Option String :=
  (poss.filter (fun x => decide ((7 : ℚ) / 10 ≤ simQ w x))).foldl (gcmStep w) none

/-! ### Data model -/

/-- One row of `rent_df` (spec §3 RentalRecord): the columns `update_map`
touches.  `block_num` is the raw column after `pd.to_numeric` coercion
(line 66): `none` models a non-numeric entry that `dropna` removes. -/
structure RentalRecord where
  block_address : String
  block_num : Option ℚ
  cleaned_monthly_rent : Option ℚ
  cleaned_square_footage : Option ℚ
  cleaned_bedroom_count : Option ℚ
  cleaned_bathroom_count : Option ℚ
  unit_count : Option ℚ
  latitude : Option ℚ
  longitude : Option ℚ
deriving DecidableEq

/-- One aggregated row (spec §3 BlockSummary), src/app.py lines 108-116. -/
structure BlockSummary where
  block_address : String
  avgRent : Option ℚ
  medSqft : Option ℚ
  medBed : Option ℚ
  medBath : Option ℚ
  totalUnits : ℚ
  meanLat : Option ℚ
  meanLon : Option ℚ
deriving DecidableEq

/-- Uncaught Python exceptions the callback can raise. -/
inductive PyErr where
  | attributeError
  | indexError
deriving DecidableEq

/-- Result of one callback invocation: the success figure built from the
aggregated rows with an empty status (line 172), the default figure plus an
error message from `update_map_with_message` (lines 174-183), an uncaught
exception, or the sentinel for a diverging recursion (never produced, since
the default query carries a leading number). -/
inductive Outcome where
  | success (rows : List BlockSummary)
  | failure (msg : String)
  | pyError (e : PyErr)
  | nonTermination
deriving DecidableEq

/-! ### The resolution pipeline -/

/-- Lower-cased character list of a string (`case=False` matching). -/
def lowerL (s : String) : List Char :=
  s.data.map Char.toLower

/-- Does the second list start with the first? -/
def leadsWith : List Char → List Char → Bool
  | [], _ => true
  | _ :: _, [] => false
  | a :: as, b :: bs => a = b && leadsWith as bs

/-- Contiguous-sublist test: does `hay` contain `needle`? -/
def hasSub (hay needle : List Char) : Bool :=
  match hay with
  | [] => needle.isEmpty
  | _ :: t => leadsWith needle hay || hasSub t needle

/-- `Series.str.contains(needle, na=False, case=False)` (line 59) specialised
to the metacharacter-free street fragments of the spec: case-insensitive
substring containment. -/
def containsCI (haystack needle : String) : Bool :=
  hasSub (lowerL haystack) (lowerL needle)

/-- Candidate selection (line 59): rows whose address contains the street
fragment, case-insensitively. -/
def candidates (df : List RentalRecord) (street : String) : List RentalRecord :=
  df.filter (fun r => containsCI r.block_address street)

/-- Fuzzy narrowing (lines 61-64): on a non-empty candidate set, keep only the
rows of the single close match when `get_close_matches` returns one, else keep
everything. -/
def fuzzyNarrow (street : String) (rows : List RentalRecord) : List RentalRecord :=
  if rows.isEmpty then rows
  else
    match get_close_matches street (rows.map (fun r => r.block_address)) with
    | some best => rows.filter (fun r => r.block_address = best)
    | none => rows

/-- Lines 59-67: containment filter, fuzzy narrowing, then removal of rows
whose `block_num` did not coerce to a number. -/
def survivors (df : List RentalRecord) (street : String) : List RentalRecord :=
  (fuzzyNarrow street (candidates df street)).filter (fun r => r.block_num.isSome)

/-- Line 96: the rows of the winning block address. -/
def selectedRows (df : List RentalRecord) (street winner : String) : List RentalRecord :=
  (survivors df street).filter (fun r => r.block_address = winner)

/-- Mean with pandas `skipna` semantics over the present values. -/
def meanQ (l : List ℚ) : Option ℚ :=
  if l = [] then none else some (l.sum / l.length)

/-- Median with pandas semantics: middle of the sorted values, or the average
of the two middles for an even count. -/
def medianQ (l : List ℚ) : Option ℚ :=
  if l = [] then none
  else
    let s := List.insertionSort (fun a b : ℚ => a ≤ b) l
    let n := s.length
    if n % 2 = 1 then some (s.getD (n / 2) 0)
    else some ((s.getD (n / 2 - 1) 0 + s.getD (n / 2) 0) / 2)

/-- Lines 108-116: `groupby("block_address")` (keys sorted ascending, one
output row per distinct address) with mean rent, median square footage,
median bedrooms, median bathrooms, summed units, mean latitude, mean
longitude; every reduction skips missing values. -/
def aggregate (rows : List RentalRecord) : List BlockSummary :=
  (List.insertionSort (fun a b : String => a ≤ b)
      ((rows.map (fun r => r.block_address)).dedup)).map
    (fun a =>
      let g := rows.filter (fun r => r.block_address = a)
      { block_address := a
        avgRent := meanQ (g.filterMap (fun r => r.cleaned_monthly_rent))
        medSqft := medianQ (g.filterMap (fun r => r.cleaned_square_footage))
        medBed := medianQ (g.filterMap (fun r => r.cleaned_bedroom_count))
        medBath := medianQ (g.filterMap (fun r => r.cleaned_bathroom_count))
        totalUnits := (g.filterMap (fun r => r.unit_count)).sum
        meanLat := meanQ (g.filterMap (fun r => r.latitude))
        meanLon := meanQ (g.filterMap (fun r => r.longitude)) })

/-- Lines 74-76: extract each surviving row's reference block (first digit run
of the address, floored to the hundred).  `none` models the `AttributeError`
raised on the first address without a digit. -/
def refsOf : List RentalRecord → Option (List (RentalRecord × Nat))
  | [] => some []
  | r :: t =>
    match extractRef r.block_address with
    | none => none
    | some m =>
      match refsOf t with
      | none => none
      | some rest => some ((r, m / 100 * 100) :: rest)

/-- `nsmallest(1, _)` with `keep='first'` (line 86): first row attaining the
minimum, `none` on an empty frame. -/
def argminFirst {α : Type} (f : α → Nat) (l : List α) : Option α :=
  l.foldl
    (fun acc x =>
      match acc with
      | none => some x
      | some c => if f x < f c then some x else some c)
    none

/-- Lines 70-116 for a supplied block number: distance scoring against
`target = number // 100 * 100`, selection of the closest block address
(`IndexError` from `.iloc[0]` when no candidate row is left), the
missing-coordinate check, and aggregation. -/
def scorePhase (df : List RentalRecord) (street : String) (target : Nat) : Outcome :=
  match refsOf (survivors df street) with
  | none => Outcome.pyError PyErr.attributeError
  | some scored =>
    match argminFirst (fun p => ((p.2 : Int) - (target : Int)).natAbs) scored with
    | none => Outcome.pyError PyErr.indexError
    | some best =>
      if (selectedRows df street best.1.block_address).isEmpty
          || (selectedRows df street best.1.block_address).any
            (fun r => r.latitude.isNone || r.longitude.isNone)
      then Outcome.failure "No valid data found. Please check the address format."
      else Outcome.success (aggregate (selectedRows df street best.1.block_address))

/-- Lines 46-104 on the cleaned query: parse, reject an empty street fragment,
then either score (number supplied) or signal the recursive
fallback-to-default of line 93 (`none`). -/
def runPipeline (df : List RentalRecord) (cleaned : String) : Option Outcome :=
  match parseAddress cleaned with
  | (numOpt, street0) =>
    if pyStrip street0 = "" then
      some (Outcome.failure "Invalid input. Please enter a valid street name.")
    else
      match numOpt with
      | none => none
      | some n => some (scorePhase df (pyStrip street0) (n / 100 * 100))

/-- Line 13. -/
def DEFAULT_SEARCH_QUERY : String := "100 Larkin St"

/-- The callback `update_map` (lines 34-172): empty or whitespace-only input
falls back to the default query (lines 39-41), the query is stripped (line
43) and run through the pipeline; a query without a leading number re-enters
`update_map` with the default query (line 93), which itself always carries a
number, so one unfolding of the recursion suffices. -/
def update_map (df : List RentalRecord) (q : String) : Outcome :=
  match runPipeline df (pyStrip (if pyStrip q = "" then DEFAULT_SEARCH_QUERY else q)) with
  | some o => o
  | none =>
    match runPipeline df (pyStrip DEFAULT_SEARCH_QUERY) with
    | some o => o
    | none => Outcome.nonTermination

/-! ### Concrete sample data for witnesses and counterexamples -/

/-- A 100-block Larkin St listing. -/
def r1a : RentalRecord :=
  { block_address := "100 Block of Larkin St", block_num := some 100
    cleaned_monthly_rent := some 2000, cleaned_square_footage := some 700
    cleaned_bedroom_count := some 1, cleaned_bathroom_count := some 1
    unit_count := some 2, latitude := some 37, longitude := some (-122) }

/-- A second listing on the same 100 block. -/
def r1b : RentalRecord :=
  { block_address := "100 Block of Larkin St", block_num := some 100
    cleaned_monthly_rent := some 2400, cleaned_square_footage := some 800
    cleaned_bedroom_count := some 2, cleaned_bathroom_count := some 2
    unit_count := some 1, latitude := some 38, longitude := some (-123) }

/-- A 200-block Larkin St listing. -/
def r2 : RentalRecord :=
  { block_address := "200 Block of Larkin St", block_num := some 200
    cleaned_monthly_rent := some 2500, cleaned_square_footage := some 900
    cleaned_bedroom_count := some 3, cleaned_bathroom_count := some 2
    unit_count := some 4, latitude := some 39, longitude := some (-124) }

/-- Sample dataset with two Larkin St blocks. -/
def sampleDf : List RentalRecord := [r1a, r1b, r2]

/-- The aggregated row of the 100 block of `sampleDf`. -/
def summary100 : BlockSummary :=
  { block_address := "100 Block of Larkin St", avgRent := some 2200
    medSqft := some 750, medBed := some (3 / 2), medBath := some (3 / 2)
    totalUnits := 3, meanLat := some (75 / 2), meanLon := some (-245 / 2) }

/-- A row whose address has no leading digits: `extractRef` fails on it. -/
def rNoDigit : RentalRecord :=
  { block_address := "Block of Grove St", block_num := some 100
    cleaned_monthly_rent := some 1800, cleaned_square_footage := some 650
    cleaned_bedroom_count := some 1, cleaned_bathroom_count := some 1
    unit_count := some 1, latitude := some 37, longitude := some (-122) }

/-- A row with a missing latitude on the 100 block of Hyde St. -/
def rNoLat : RentalRecord :=
  { block_address := "100 Block of Hyde St", block_num := some 100
    cleaned_monthly_rent := some 2100, cleaned_square_footage := some 600
    cleaned_bedroom_count := some 1, cleaned_bathroom_count := some 1
    unit_count := some 2, latitude := none, longitude := some (-122) }

/-- Non-strict comparison of the `(ratio, string)` pairs ordered by
`get_close_matches`: ratio first, then the string lexicographically. -/
def keyLE (w x c : String) : Prop :=
  simQ w x < simQ w c ∨ (simQ w x = simQ w c ∧ x ≤ c)

/-- A candidate row whose whole address is the street name: similarity with
the near-identical query `Larkin Str` exceeds the 0.7 cutoff. -/
def rShort : RentalRecord :=
  { block_address := "Larkin St", block_num := some 100
    cleaned_monthly_rent := some 1500, cleaned_square_footage := some 500
    cleaned_bedroom_count := some 1, cleaned_bathroom_count := some 1
    unit_count := some 1, latitude := some 37, longitude := some (-122) }

/-- A second candidate row with a dissimilar address. -/
def rShort2 : RentalRecord :=
  { block_address := "Hyde St", block_num := some 100
    cleaned_monthly_rent := some 1600, cleaned_square_footage := some 550
    cleaned_bedroom_count := some 1, cleaned_bathroom_count := some 1
    unit_count := some 1, latitude := some 37, longitude := some (-122) }

/-- Candidate set for the fuzzy-narrowing witness. -/
def w4rows : List RentalRecord := [rShort, rShort2]

-- Rational arithmetic is irreducible by default; expose it so that concrete
-- runs of the pipeline can be checked by evaluation.
unseal Rat.mul Rat.inv Rat.add Rat.sub

/-! ### Helper lemmas about the pipeline plumbing -/

/-- A cleaned query that parses with a number and a non-empty street runs the
scoring phase. -/
theorem runPipeline_eq_some (df : List RentalRecord) (cleaned : String) (n : Nat)
    (street0 : String) (h : parseAddress cleaned = (some n, street0))
    (h2 : ¬ pyStrip street0 = "") :
    runPipeline df cleaned = some (scorePhase df (pyStrip street0) (n / 100 * 100)) := by
  unfold runPipeline
  rw [h]
  simp [h2]

/-- A cleaned query that parses without a number signals the recursive
fallback of src/app.py line 93. -/
theorem runPipeline_eq_none (df : List RentalRecord) (cleaned : String)
    (street0 : String) (h : parseAddress cleaned = (none, street0))
    (h2 : ¬ pyStrip street0 = "") :
    runPipeline df cleaned = none := by
  unfold runPipeline
  rw [h]
  simp [h2]

/-- A non-blank query whose parse supplies a number resolves through the
scoring phase. -/
theorem update_map_scorePhase (df : List RentalRecord) (q : String) (n : Nat)
    (street0 : String) (hq : ¬ pyStrip q = "")
    (hp : parseAddress (pyStrip q) = (some n, street0))
    (hs : ¬ pyStrip street0 = "") :
    update_map df q = scorePhase df (pyStrip street0) (n / 100 * 100) := by
  unfold update_map
  rw [if_neg hq, runPipeline_eq_some df (pyStrip q) n street0 hp hs]

/-! ### C8: empty and whitespace-only queries resolve the default query -/

/-- C8: for every dataset, resolving the empty string and resolving a
whitespace-only string both behave identically to resolving the configured
default query — lines 39-41 substitute `DEFAULT_SEARCH_QUERY` before any
parsing happens. -/
theorem c8_empty_input_uses_default (df : List RentalRecord) :
    update_map df "" = update_map df DEFAULT_SEARCH_QUERY ∧
    update_map df "   " = update_map df DEFAULT_SEARCH_QUERY := by
  have hD : ¬ pyStrip DEFAULT_SEARCH_QUERY = "" := by decide
  have h1 : pyStrip "" = "" := by decide
  have h2 : pyStrip "   " = "" := by decide
  constructor
  · unfold update_map
    rw [if_pos h1, if_neg hD]
  · unfold update_map
    rw [if_pos h2, if_neg hD]

/-! ### C5: block numbers are floored to the hundred before scoring -/

/-- C5: `input_block = int(input_number) // 100 * 100` (line 71), so for any
fixed dataset the queries `150 Larkin St` and `199 Larkin St` run the exact
same resolution (both normalise to block 100) and produce the same outcome. -/
theorem c5_hundred_block_rounding (df : List RentalRecord) :
    update_map df "150 Larkin St" = update_map df "199 Larkin St" := by
  rw [update_map_scorePhase df "150 Larkin St" 150 "Larkin St" (by decide) (by decide)
      (by decide),
    update_map_scorePhase df "199 Larkin St" 199 "Larkin St" (by decide) (by decide)
      (by decide)]

/-! ### C1: a query without a leading number is not reported as an error -/

/-- C1 counterexample: `"Larkin St"` has no leading number, yet no error
outcome reaches the presentation adapter — line 93 recursively resolves the
default query `100 Larkin St` and its successful summary is returned. -/
theorem c1_counterexample :
    update_map sampleDf "Larkin St" = Outcome.success [summary100] := by decide

/-- C1 (amended): for every input lacking a leading number, the resolver does
not propagate an error; it re-enters itself on the configured default query
and returns whatever that query resolves to. -/
theorem c1_missing_number_resolves_default (df : List RentalRecord) (q : String)
    (street0 : String) (hq : ¬ pyStrip q = "")
    (hp : parseAddress (pyStrip q) = (none, street0))
    (hs : ¬ pyStrip street0 = "") :
    update_map df q = update_map df DEFAULT_SEARCH_QUERY := by
  have hD : ¬ pyStrip DEFAULT_SEARCH_QUERY = "" := by decide
  unfold update_map
  rw [if_neg hq, if_neg hD, runPipeline_eq_none df (pyStrip q) street0 hp hs,
    runPipeline_eq_some df (pyStrip DEFAULT_SEARCH_QUERY) 100 "Larkin St" (by decide)
      (by decide)]

/-- C1 witness: the amended statement at the query `"Larkin St"` over the
sample dataset. -/
theorem c1_missing_number_witness :
    update_map sampleDf "Larkin St" = update_map sampleDf DEFAULT_SEARCH_QUERY :=
  c1_missing_number_resolves_default sampleDf "Larkin St" "Larkin St" (by decide)
    (by decide) (by decide)

/-! ### C2: a query matching no record does not fail gracefully -/

/-- C2: with no containment match at all, a numbered query crashes with an
uncaught `IndexError` at `closest_match["block_address"].iloc[0]` (line 89)
instead of returning the default map with the no-data message, and an
unnumbered no-match query silently resolves the default query instead. -/
theorem c2_no_match_crashes :
    candidates sampleDf "Nonexistent St" = [] ∧
    update_map sampleDf "100 Nonexistent St" = Outcome.pyError PyErr.indexError ∧
    update_map sampleDf "Nonexistent St" = Outcome.success [summary100] := by decide

/-! ### C3: an all-digit query is not rejected as an invalid street name -/

/-- C3: regex backtracking parses `"100"` as number 10 with street `"0"`, so
the empty-street guard of lines 51-54 is never triggered; the query proceeds
through containment matching on `"0"` and resolves a block instead of failing
with the invalid-input message. -/
theorem c3_all_digit_query_not_rejected :
    parseAddress "100" = (some 10, "0") ∧
    update_map sampleDf "100" = Outcome.success [summary100] ∧
    update_map sampleDf "100" ≠
      Outcome.failure "Invalid input. Please enter a valid street name." := by decide

/-! ### C7: the missing-coordinate check after the winner is selected -/

/-- The scoring phase, unfolded once extraction succeeded and a closest row
exists: everything hinges on the guard of src/app.py line 101. -/
theorem scorePhase_eq (df : List RentalRecord) (street : String) (target : Nat)
    (scored : List (RentalRecord × Nat)) (best : RentalRecord × Nat)
    (hrefs : refsOf (survivors df street) = some scored)
    (hwin : argminFirst (fun p => ((p.2 : Int) - (target : Int)).natAbs) scored = some best) :
    scorePhase df street target =
      if (selectedRows df street best.1.block_address).isEmpty
          || (selectedRows df street best.1.block_address).any
            (fun r => r.latitude.isNone || r.longitude.isNone)
      then Outcome.failure "No valid data found. Please check the address format."
      else Outcome.success (aggregate (selectedRows df street best.1.block_address)) := by
  unfold scorePhase
  simp only [hrefs, hwin]

/-- C7: once the winning block address is selected, resolution fails with the
no-data message exactly when the set of rows matching that address is empty
or some selected row lacks a latitude or a longitude (line 101); in that case
`update_map_with_message` returns the default map plus the error message. -/
theorem c7_no_valid_coordinates (df : List RentalRecord) (q : String) (n : Nat)
    (street0 : String) (scored : List (RentalRecord × Nat)) (best : RentalRecord × Nat)
    (hq : ¬ pyStrip q = "")
    (hp : parseAddress (pyStrip q) = (some n, street0))
    (hs : ¬ pyStrip street0 = "")
    (hrefs : refsOf (survivors df (pyStrip street0)) = some scored)
    (hwin : argminFirst (fun p => ((p.2 : Int) - ((n / 100 * 100 : Nat) : Int)).natAbs)
      scored = some best) :
    (update_map df q = Outcome.failure "No valid data found. Please check the address format.")
      ↔ (selectedRows df (pyStrip street0) best.1.block_address = []
         ∨ ∃ r ∈ selectedRows df (pyStrip street0) best.1.block_address,
             r.latitude = none ∨ r.longitude = none) := by
  rw [update_map_scorePhase df q n street0 hq hp hs,
    scorePhase_eq df (pyStrip street0) (n / 100 * 100) scored best hrefs hwin]
  by_cases hC : ((selectedRows df (pyStrip street0) best.1.block_address).isEmpty
      || (selectedRows df (pyStrip street0) best.1.block_address).any
        (fun r => r.latitude.isNone || r.longitude.isNone)) = true
  · rw [if_pos hC]
    simp only [Bool.or_eq_true, List.isEmpty_iff, List.any_eq_true,
      Option.isNone_iff_eq_none] at hC
    exact iff_of_true rfl hC
  · rw [if_neg hC]
    constructor
    · intro h
      exact absurd h (by simp)
    · intro hP
      exact absurd (by
        simpa only [Bool.or_eq_true, List.isEmpty_iff, List.any_eq_true,
          Option.isNone_iff_eq_none] using hP) hC

/-- C7 witness: a 100-block Hyde St record with a missing latitude makes the
query `100 Hyde St` fail with the no-data message. -/
theorem c7_witness :
    update_map [rNoLat] "100 Hyde St"
      = Outcome.failure "No valid data found. Please check the address format." := by
  refine (c7_no_valid_coordinates [rNoLat] "100 Hyde St" 100 "Hyde St" [(rNoLat, 100)]
    (rNoLat, 100) (by decide) (by decide) (by decide) (by decide) (by decide)).mpr ?_
  exact Or.inr ⟨rNoLat, by decide, Or.inl rfl⟩

/-! ### C10: block-number extraction is partial on digit-less addresses -/

/-- `re.search(r'(\d+)', s)` fails exactly on digit-free text. -/
theorem extractRef_eq_none_of_no_digit (s : String)
    (h : ∀ c ∈ s.data, c.isDigit = false) : extractRef s = none := by
  unfold extractRef
  have hd : s.data.dropWhile (fun c => !c.isDigit) = [] := by
    rw [List.dropWhile_eq_nil_iff]
    intro c hc
    simp [h c hc]
  rw [hd]

/-- One digit-less surviving address poisons the whole extraction column. -/
theorem refsOf_eq_none_of_mem (rows : List RentalRecord) (r : RentalRecord)
    (hr : r ∈ rows) (he : extractRef r.block_address = none) :
    refsOf rows = none := by
  induction rows with
  | nil => cases hr
  | cons x t ih =>
    rcases List.mem_cons.mp hr with rfl | hrt
    · unfold refsOf
      rw [he]
    · unfold refsOf
      cases hx : extractRef x.block_address with
      | none => rfl
      | some m => rw [ih hrt]

/-- C10: for a numbered query, if any candidate row that survives filtering
has an address without a single digit, the extraction lambda of lines 74-76
dereferences a failed `re.search` and the callback raises `AttributeError`;
resolution is total only when every surviving address contains a digit. -/
theorem c10_digitless_candidate_raises (df : List RentalRecord) (q : String) (n : Nat)
    (street0 : String) (hq : ¬ pyStrip q = "")
    (hp : parseAddress (pyStrip q) = (some n, street0))
    (hs : ¬ pyStrip street0 = "")
    (hbad : ∃ r ∈ survivors df (pyStrip street0),
      ∀ c ∈ r.block_address.data, c.isDigit = false) :
    update_map df q = Outcome.pyError PyErr.attributeError := by
  rw [update_map_scorePhase df q n street0 hq hp hs]
  obtain ⟨r, hr, hdig⟩ := hbad
  unfold scorePhase
  rw [refsOf_eq_none_of_mem (survivors df (pyStrip street0)) r hr
    (extractRef_eq_none_of_no_digit r.block_address hdig)]

/-- C10 witness: the record `Block of Grove St` survives the query
`100 Grove St` but its address has no digit, so the callback raises. -/
theorem c10_witness :
    update_map [rNoDigit] "100 Grove St" = Outcome.pyError PyErr.attributeError :=
  c10_digitless_candidate_raises [rNoDigit] "100 Grove St" 100 "Grove St" (by decide)
    (by decide) (by decide) ⟨rNoDigit, by decide, by decide⟩

/-! ### C4: the fuzzy-narrowing step keeps the single best close match -/

/-- `keyLE` is reflexive. -/
theorem keyLE_refl (w x : String) : keyLE w x x :=
  Or.inr ⟨rfl, le_refl x⟩

/-- `keyLE` is transitive. -/
theorem keyLE_trans (w : String) {x y z : String} (h1 : keyLE w x y) (h2 : keyLE w y z) :
    keyLE w x z := by
  rcases h1 with h1 | ⟨e1, s1⟩ <;> rcases h2 with h2 | ⟨e2, s2⟩
  · exact Or.inl (lt_trans h1 h2)
  · exact Or.inl (e2 ▸ h1)
  · exact Or.inl (e1 ▸ h2)
  · exact Or.inr ⟨e1.trans e2, le_trans s1 s2⟩

/-- The ratio component of `keyLE`. -/
theorem keyLE_simQ_le (w : String) {x c : String} (h : keyLE w x c) :
    simQ w x ≤ simQ w c := by
  rcases h with h | ⟨e, _⟩
  · exact le_of_lt h
  · exact le_of_eq e

/-- Not beating the incumbent means comparing at most equal. -/
theorem keyLE_of_beats_false (w : String) {x c : String} (h : beats w x c = false) :
    keyLE w x c := by
  unfold beats at h
  rcases Bool.or_eq_false_iff.mp h with ⟨h1, h2⟩
  rcases lt_trichotomy (simQ w x) (simQ w c) with hlt | heq | hgt
  · exact Or.inl hlt
  · refine Or.inr ⟨heq, ?_⟩
    rw [decide_eq_true heq.symm, Bool.true_and] at h2
    exact le_of_not_lt (of_decide_eq_false h2)
  · exact absurd hgt (of_decide_eq_false h1)

/-- Beating the incumbent means comparing strictly above it (weak form). -/
theorem keyLE_of_beats_true (w : String) {x c : String} (h : beats w x c = true) :
    keyLE w c x := by
  unfold beats at h
  rcases Bool.or_eq_true_iff.mp h with h1 | h2
  · exact Or.inl (of_decide_eq_true h1)
  · rcases Bool.and_eq_true_iff.mp h2 with ⟨he, hs⟩
    exact Or.inr ⟨of_decide_eq_true he, le_of_lt (of_decide_eq_true hs)⟩

/-- The running maximum over the scored possibilities returns an element that
every processed possibility compares at most equal to. -/
theorem gcmFold_spec (w : String) (l : List String) : ∀ c : String,
    ∃ m, l.foldl (gcmStep w) (some c) = some m ∧ (m = c ∨ m ∈ l) ∧ keyLE w c m ∧
      ∀ x ∈ l, keyLE w x m := by
  induction l with
  | nil =>
    intro c
    exact ⟨c, rfl, Or.inl rfl, keyLE_refl w c, fun x hx => absurd hx (List.not_mem_nil x)⟩
  | cons a t ih =>
    intro c
    by_cases hb : beats w a c = true
    · have hstep : (a :: t).foldl (gcmStep w) (some c) = t.foldl (gcmStep w) (some a) := by
        simp only [List.foldl_cons, gcmStep, if_pos hb]
      obtain ⟨m, hm, hmem, ham, hall⟩ := ih a
      refine ⟨m, hstep.trans hm, ?_, keyLE_trans w (keyLE_of_beats_true w hb) ham, ?_⟩
      · rcases hmem with rfl | hmt
        · exact Or.inr (List.mem_cons_self _ _)
        · exact Or.inr (List.mem_cons_of_mem _ hmt)
      · intro x hx
        rcases List.mem_cons.mp hx with rfl | hxt
        · exact ham
        · exact hall x hxt
    · have hb' : beats w a c = false := by
        revert hb
        cases beats w a c <;> simp
      have hstep : (a :: t).foldl (gcmStep w) (some c) = t.foldl (gcmStep w) (some c) := by
        simp only [List.foldl_cons, gcmStep, if_neg hb]
      obtain ⟨m, hm, hmem, hcm, hall⟩ := ih c
      refine ⟨m, hstep.trans hm, ?_, hcm, ?_⟩
      · rcases hmem with rfl | hmt
        · exact Or.inl rfl
        · exact Or.inr (List.mem_cons_of_mem _ hmt)
      · intro x hx
        rcases List.mem_cons.mp hx with rfl | hxt
        · exact keyLE_trans w (keyLE_of_beats_false w hb') hcm
        · exact hall x hxt

/-- With no possibility at the cutoff, `get_close_matches` returns nothing. -/
theorem get_close_matches_none (w : String) (poss : List String)
    (h : poss.filter (fun x => decide ((7 : ℚ) / 10 ≤ simQ w x)) = []) :
    get_close_matches w poss = none := by
  unfold get_close_matches
  rw [h]
  rfl

/-- With at least one possibility at the cutoff, `get_close_matches` returns
a surviving possibility that none of the survivors beats. -/
theorem get_close_matches_best (w : String) (poss : List String) (c0 : String)
    (t : List String)
    (h : poss.filter (fun x => decide ((7 : ℚ) / 10 ≤ simQ w x)) = c0 :: t) :
    ∃ m, get_close_matches w poss = some m ∧ m ∈ c0 :: t ∧ ∀ x ∈ c0 :: t, keyLE w x m := by
  unfold get_close_matches
  rw [h]
  obtain ⟨m, hm, hmem, hc0m, hall⟩ := gcmFold_spec w t c0
  have hfold : (c0 :: t).foldl (gcmStep w) none = t.foldl (gcmStep w) (some c0) := rfl
  refine ⟨m, hfold.trans hm, ?_, ?_⟩
  · rcases hmem with rfl | hmt
    · exact List.mem_cons_self _ _
    · exact List.mem_cons_of_mem _ hmt
  · intro x hx
    rcases List.mem_cons.mp hx with rfl | hxt
    · exact hc0m
    · exact hall x hxt

/-- C4: on a non-empty candidate set, if the highest similarity between the
street fragment and a candidate address is at least 0.7 then exactly the rows
of a single highest-scoring address are kept (lines 62-64), otherwise the
candidate set passes through unmodified. -/
theorem c4_fuzzy_narrowing (street : String) (rows : List RentalRecord)
    (hne : rows ≠ []) :
    ((∀ r ∈ rows, simQ street r.block_address < 7 / 10) →
        fuzzyNarrow street rows = rows) ∧
    ((∃ r ∈ rows, (7 : ℚ) / 10 ≤ simQ street r.block_address) →
      ∃ best ∈ rows.map (fun r => r.block_address),
        (7 : ℚ) / 10 ≤ simQ street best ∧
        (∀ r ∈ rows, simQ street r.block_address ≤ simQ street best) ∧
        fuzzyNarrow street rows = rows.filter (fun r => r.block_address = best)) := by
  have hrows : ¬ rows.isEmpty = true := by
    cases rows with
    | nil => exact absurd rfl hne
    | cons a t => simp
  constructor
  · intro hall
    have hfil : (rows.map (fun r => r.block_address)).filter
        (fun x => decide ((7 : ℚ) / 10 ≤ simQ street x)) = [] := by
      rw [List.filter_eq_nil_iff]
      intro x hx
      obtain ⟨r, hr, rfl⟩ := List.mem_map.mp hx
      simp only [decide_eq_true_eq]
      exact not_le.mpr (hall r hr)
    unfold fuzzyNarrow
    rw [if_neg hrows, get_close_matches_none street _ hfil]
  · rintro ⟨r0, hr0, hge⟩
    have hmem : r0.block_address ∈ (rows.map (fun r => r.block_address)).filter
        (fun x => decide ((7 : ℚ) / 10 ≤ simQ street x)) :=
      List.mem_filter.mpr ⟨List.mem_map_of_mem _ hr0, decide_eq_true hge⟩
    obtain ⟨c0, t, hf⟩ : ∃ c0 t, (rows.map (fun r => r.block_address)).filter
        (fun x => decide ((7 : ℚ) / 10 ≤ simQ street x)) = c0 :: t := by
      cases hfl : (rows.map (fun r => r.block_address)).filter
          (fun x => decide ((7 : ℚ) / 10 ≤ simQ street x)) with
      | nil => rw [hfl] at hmem; cases hmem
      | cons c0 t => exact ⟨c0, t, rfl⟩
    obtain ⟨m, hgcm, hmF, hallF⟩ := get_close_matches_best street _ c0 t hf
    have hmF2 : m ∈ (rows.map (fun r => r.block_address)).filter
        (fun x => decide ((7 : ℚ) / 10 ≤ simQ street x)) := by
      rw [hf]
      exact hmF
    obtain ⟨hmMap, hmDec⟩ := List.mem_filter.mp hmF2
    refine ⟨m, hmMap, of_decide_eq_true hmDec, ?_, ?_⟩
    · intro r hr
      by_cases h7 : (7 : ℚ) / 10 ≤ simQ street r.block_address
      · have hrF : r.block_address ∈ c0 :: t := by
          have : r.block_address ∈ (rows.map (fun r => r.block_address)).filter
              (fun x => decide ((7 : ℚ) / 10 ≤ simQ street x)) :=
            List.mem_filter.mpr ⟨List.mem_map_of_mem _ hr, decide_eq_true h7⟩
          rwa [hf] at this
        exact keyLE_simQ_le street (hallF _ hrF)
      · exact le_trans (le_of_lt (not_le.mp h7)) (of_decide_eq_true hmDec)
    · unfold fuzzyNarrow
      rw [if_neg hrows, hgcm]

/-- C4 witness: the statement instantiated at the query street `Larkin Str`
over candidates `Larkin St` and `Hyde St`. -/
theorem c4_witness :
    ((∀ r ∈ w4rows, simQ "Larkin Str" r.block_address < 7 / 10) →
        fuzzyNarrow "Larkin Str" w4rows = w4rows) ∧
    ((∃ r ∈ w4rows, (7 : ℚ) / 10 ≤ simQ "Larkin Str" r.block_address) →
      ∃ best ∈ w4rows.map (fun r => r.block_address),
        (7 : ℚ) / 10 ≤ simQ "Larkin Str" best ∧
        (∀ r ∈ w4rows, simQ "Larkin Str" r.block_address ≤ simQ "Larkin Str" best) ∧
        fuzzyNarrow "Larkin Str" w4rows
          = w4rows.filter (fun r => r.block_address = best)) :=
  c4_fuzzy_narrowing "Larkin Str" w4rows (by decide)

/-! ### C6 and C9: the aggregator -/

/-- Deduplicating a constant list leaves its single value. -/
theorem dedup_replicate_ne {α : Type} [DecidableEq α] (a : α) :
    ∀ n, n ≠ 0 → (List.replicate n a).dedup = [a]
  | 0, h => absurd rfl h
  | 1, _ => by simp
  | n + 2, _ => by
    rw [List.replicate_succ, List.dedup_cons_of_mem
      (List.mem_replicate.mpr ⟨Nat.succ_ne_zero n, rfl⟩)]
    exact dedup_replicate_ne a (n + 1) (Nat.succ_ne_zero n)

/-- Sorting a one-element list is the identity. -/
theorem insertionSort_single {α : Type} (r : α → α → Prop) [DecidableRel r] (a : α) :
    List.insertionSort r [a] = [a] := by
  simp [List.insertionSort, List.orderedInsert]

/-- The addresses of a one-block row set form a constant list. -/
theorem map_addr_replicate (l : List RentalRecord) (a : String)
    (hl : ∀ r ∈ l, r.block_address = a) :
    l.map (fun r => r.block_address) = List.replicate l.length a := by
  induction l with
  | nil => rfl
  | cons x t ih =>
    rw [List.map_cons, List.length_cons, List.replicate_succ, hl x (List.mem_cons_self x t),
      ih (fun r hr => hl r (List.mem_cons_of_mem x hr))]

/-- C6: aggregating a non-empty row set that shares one block address yields
exactly one summary row, whose fields are the mean of the rents, the medians
of square footage, bedroom and bathroom counts, the sum of the unit counts
and the means of latitude and longitude (the `agg` dictionary of lines
108-116). -/
theorem c6_aggregate_reductions (rows : List RentalRecord) (a : String)
    (hne : rows ≠ []) (hall : ∀ r ∈ rows, r.block_address = a) :
    aggregate rows =
      [{ block_address := a
         avgRent := meanQ (rows.filterMap (fun r => r.cleaned_monthly_rent))
         medSqft := medianQ (rows.filterMap (fun r => r.cleaned_square_footage))
         medBed := medianQ (rows.filterMap (fun r => r.cleaned_bedroom_count))
         medBath := medianQ (rows.filterMap (fun r => r.cleaned_bathroom_count))
         totalUnits := (rows.filterMap (fun r => r.unit_count)).sum
         meanLat := meanQ (rows.filterMap (fun r => r.latitude))
         meanLon := meanQ (rows.filterMap (fun r => r.longitude)) }] := by
  have hded : (rows.map (fun r => r.block_address)).dedup = [a] := by
    rw [map_addr_replicate rows a hall]
    exact dedup_replicate_ne a rows.length (fun h => hne (List.length_eq_zero.mp h))
  have hfil : rows.filter (fun r => r.block_address = a) = rows :=
    List.filter_eq_self.mpr (fun r hr => decide_eq_true (hall r hr))
  unfold aggregate
  rw [hded, insertionSort_single]
  simp only [List.map_cons, List.map_nil, hfil]

/-- C6 witness: the two 100-block rows of the sample dataset. -/
theorem c6_witness :
    aggregate [r1a, r1b] =
      [{ block_address := "100 Block of Larkin St"
         avgRent := meanQ ([r1a, r1b].filterMap (fun r => r.cleaned_monthly_rent))
         medSqft := medianQ ([r1a, r1b].filterMap (fun r => r.cleaned_square_footage))
         medBed := medianQ ([r1a, r1b].filterMap (fun r => r.cleaned_bedroom_count))
         medBath := medianQ ([r1a, r1b].filterMap (fun r => r.cleaned_bathroom_count))
         totalUnits := ([r1a, r1b].filterMap (fun r => r.unit_count)).sum
         meanLat := meanQ ([r1a, r1b].filterMap (fun r => r.latitude))
         meanLon := meanQ ([r1a, r1b].filterMap (fun r => r.longitude)) }] :=
  c6_aggregate_reductions [r1a, r1b] "100 Block of Larkin St" (by decide) (by decide)

/-- Means ignore the order of the values. -/
theorem meanQ_perm {l l2 : List ℚ} (h : l.Perm l2) : meanQ l = meanQ l2 := by
  unfold meanQ
  by_cases hl : l = []
  · have hl2 : l2 = [] := by
      rw [hl] at h
      exact h.symm.eq_nil
    rw [hl, hl2]
  · have hl2 : l2 ≠ [] := fun he => hl (by
      rw [he] at h
      exact h.eq_nil)
    rw [if_neg hl, if_neg hl2, h.sum_eq, h.length_eq]

/-- Medians ignore the order of the values: sorting is canonical on ℚ. -/
theorem medianQ_perm {l l2 : List ℚ} (h : l.Perm l2) : medianQ l = medianQ l2 := by
  unfold medianQ
  by_cases hl : l = []
  · have hl2 : l2 = [] := by
      rw [hl] at h
      exact h.symm.eq_nil
    rw [hl, hl2]
  · have hl2 : l2 ≠ [] := fun he => hl (by
      rw [he] at h
      exact h.eq_nil)
    have hs : List.insertionSort (fun a b : ℚ => a ≤ b) l
        = List.insertionSort (fun a b : ℚ => a ≤ b) l2 :=
      List.eq_of_perm_of_sorted
        (((List.perm_insertionSort _ l).trans h).trans (List.perm_insertionSort _ l2).symm)
        (List.sorted_insertionSort _ l) (List.sorted_insertionSort _ l2)
    rw [if_neg hl, if_neg hl2, hs]

/-- C9: aggregating any permutation of a row set yields the same summaries —
`groupby` keys are sorted, and mean, median and sum are order-independent. -/
theorem c9_aggregate_perm (rows rows2 : List RentalRecord) (h : rows.Perm rows2) :
    aggregate rows = aggregate rows2 := by
  unfold aggregate
  have hkeys : List.insertionSort (fun a b : String => a ≤ b)
        ((rows.map (fun r => r.block_address)).dedup)
      = List.insertionSort (fun a b : String => a ≤ b)
        ((rows2.map (fun r => r.block_address)).dedup) :=
    List.eq_of_perm_of_sorted
      (((List.perm_insertionSort _ _).trans ((h.map _).dedup)).trans
        (List.perm_insertionSort _ _).symm)
      (List.sorted_insertionSort _ _) (List.sorted_insertionSort _ _)
  rw [hkeys]
  apply List.map_congr_left
  intro a _
  have hg : (rows.filter (fun r => r.block_address = a)).Perm
      (rows2.filter (fun r => r.block_address = a)) := h.filter _
  simp only [meanQ_perm (hg.filterMap (fun r => r.cleaned_monthly_rent)),
    medianQ_perm (hg.filterMap (fun r => r.cleaned_square_footage)),
    medianQ_perm (hg.filterMap (fun r => r.cleaned_bedroom_count)),
    medianQ_perm (hg.filterMap (fun r => r.cleaned_bathroom_count)),
    (hg.filterMap (fun r => r.unit_count)).sum_eq,
    meanQ_perm (hg.filterMap (fun r => r.latitude)),
    meanQ_perm (hg.filterMap (fun r => r.longitude))]

/-- C9 witness: a concrete permutation of the three sample rows. -/
theorem c9_witness : aggregate [r1a, r1b, r2] = aggregate [r2, r1a, r1b] :=
  c9_aggregate_perm [r1a, r1b, r2] [r2, r1a, r1b] (by decide)
